import Mathlib

/-!
Verification of the `include_tailwind!` build-time macro (src/lib.rs).

The macro is embedded shallowly:
* the argument list is a `List Argument` in call-site iteration order
  (mirroring syn's `Punctuated<Argument, Token![,]>`);
* the process environment is a function `String → Option String`
  (`std::env::var`, with `none` standing for `VarError::NotPresent`,
  whose `Display` is "environment variable not found");
* the filesystem existence check `Path::exists` is a function
  `String → Bool` over path strings;
* spawning the external tool is a function `SpawnCall → Except String ProcOutput`
  (`Command::output()`; the `.error` case is the OS spawn error);
* `abort!` / `abort_call_site!` become the `.error` constructor of the
  result, carrying the formatted diagnostic message;
* the pipeline additionally returns the list of spawn calls it performed,
  so "no subprocess is spawned" is statable as an empty trace.

Paths follow the Unix semantics of `std::path`: a path is absolute iff it
starts with '/', and `PathBuf::push` inserts a '/' separator unless the
base is empty or already ends with one.  `str::parse::<PathBuf>` has error
type `Infallible`, modelled by `Except Empty`.
-/

set_option maxRecDepth 8192

namespace TailwindMacro

/-- The six recognized argument shapes of the macro, each carrying the
string literal's value (`LitStr::value`).  Mirrors `enum Argument` in
src/lib.rs. -/
inductive Argument where
  | Config (value : String)
  | ConfigEnv (value : String)
  | Input (value : String)
  | InputEnv (value : String)
  | TailwindCssBin (value : String)
  | TailwindCssBinEnv (value : String)
deriving DecidableEq

/-- Mirrors `Argument::as_config`. -/
def Argument.as_config : Argument → Option String
  | .Config v => some v
  | _ => none

/-- Mirrors `Argument::as_config_env`. -/
def Argument.as_config_env : Argument → Option String
  | .ConfigEnv v => some v
  | _ => none

/-- Mirrors `Argument::as_input`. -/
def Argument.as_input : Argument → Option String
  | .Input v => some v
  | _ => none

/-- Mirrors `Argument::as_input_env`. -/
def Argument.as_input_env : Argument → Option String
  | .InputEnv v => some v
  | _ => none

/-- Mirrors `Argument::as_tailwindcss_bin`. -/
def Argument.as_tailwindcss_bin : Argument → Option String
  | .TailwindCssBin v => some v
  | _ => none

/-- Mirrors `Argument::as_tailwindcss_bin_env`. -/
def Argument.as_tailwindcss_bin_env : Argument → Option String
  | .TailwindCssBinEnv v => some v
  | _ => none

/-- `args.iter().filter_map(Argument::as_config).next()` (src/lib.rs line 189). -/
def first_config (args : List Argument) : Option String :=
  args.findSome? Argument.as_config

/-- `args.iter().filter_map(Argument::as_config_env).next()` (lines 190-194). -/
def first_config_env (args : List Argument) : Option String :=
  args.findSome? Argument.as_config_env

/-- `args.iter().filter_map(Argument::as_input).next()` (line 195). -/
def first_input (args : List Argument) : Option String :=
  args.findSome? Argument.as_input

/-- `args.iter().filter_map(Argument::as_input_env).next()` (lines 196-200). -/
def first_input_env (args : List Argument) : Option String :=
  args.findSome? Argument.as_input_env

/-- `args.iter().filter_map(Argument::as_tailwindcss_bin).next()` (lines 201-205). -/
def first_tailwindcss_bin (args : List Argument) : Option String :=
  args.findSome? Argument.as_tailwindcss_bin

/-- `args.iter().filter_map(Argument::as_tailwindcss_bin_env).next()` (lines 206-210). -/
def first_tailwindcss_bin_env (args : List Argument) : Option String :=
  args.findSome? Argument.as_tailwindcss_bin_env

/-- `config_env.as_deref().unwrap_or("TAILWINDCSS_CONFIG")` (lines 212-213):
the environment-variable name checked for the config parameter. -/
def config_env_name (args : List Argument) : String :=
  (first_config_env args).getD "TAILWINDCSS_CONFIG"

/-- `input_env.as_deref().unwrap_or("TAILWINDCSS_INPUT")` (lines 214-215). -/
def input_env_name (args : List Argument) : String :=
  (first_input_env args).getD "TAILWINDCSS_INPUT"

/-- `tailwindcss_bin_env.as_deref().unwrap_or("TAILWINDCSS_BIN")` (lines 216-217). -/
def bin_env_name (args : List Argument) : String :=
  (first_tailwindcss_bin_env args).getD "TAILWINDCSS_BIN"

/-- The diagnostic produced at lines 223-226: note the variable name in the
message is the hard-coded literal `TAILWINDCSS_CONFIG`, not `config_env`;
the trailing text is `VarError::NotPresent`'s `Display`. -/
def missing_config_msg : String :=
  "Required `config` arg or `TAILWINDCSS_CONFIG` env var: environment variable not found"

/-- The diagnostic produced at lines 234-237. -/
def missing_input_msg : String :=
  "Required `input` arg or `TAILWINDCSS_INPUT` env var: environment variable not found"

/-- The diagnostic produced at lines 245-248. -/
def missing_bin_msg : String :=
  "Required `tailwindcss_bin` arg or `TAILWINDCSS_BIN` env var: environment variable not found"

/-- Resolution of the `config` logical parameter (lines 219-228): explicit
value if present, else the environment variable named `config_env_name`. -/
def resolve_config (args : List Argument) (env : String → Option String) :
    Except String String :=
  match first_config args with
  | some c => .ok c
  | none =>
    match env (config_env_name args) with
    | some c => .ok c
    | none => .error missing_config_msg

/-- Resolution of the `input` logical parameter (lines 230-239). -/
def resolve_input (args : List Argument) (env : String → Option String) :
    Except String String :=
  match first_input args with
  | some i => .ok i
  | none =>
    match env (input_env_name args) with
    | some i => .ok i
    | none => .error missing_input_msg

/-- Resolution of the `tailwindcss_bin` logical parameter (lines 241-250). -/
def resolve_bin (args : List Argument) (env : String → Option String) :
    Except String String :=
  match first_tailwindcss_bin args with
  | some b => .ok b
  | none =>
    match env (bin_env_name args) with
    | some b => .ok b
    | none => .error missing_bin_msg

/-- `str::parse::<PathBuf>` (lines 252, 269, 286): `FromStr for PathBuf`
has `type Err = Infallible`, so the parse always succeeds and returns the
same string as a path. -/
def parse_path (s : String) : Except Empty String := .ok s

/-- `Path::is_absolute` on Unix: the path has a root, i.e. starts with '/'. -/
def is_absolute (p : String) : Bool :=
  match p.data with
  | [] => false
  | c :: _ => c = '/'

/-- `Path::is_relative` = `!is_absolute`. -/
def is_relative (p : String) : Bool := !is_absolute p

/-- `PathBuf::push` / `Path::join` on Unix for a relative argument: insert
a '/' separator unless the base is empty or already ends with one. -/
def path_join (base p : String) : String :=
  if base = "" then p
  else if base.data.getLast? = some '/' then base ++ p
  else base ++ "/" ++ p

/-- Lines 252-258 (and 269-275, 286-295): parse the resolved string as a
path, then join it onto the manifest directory when it is relative. -/
def normalize_path (manifest p : String) : String :=
  match parse_path p with
  | .ok path => if is_relative path then path_join manifest path else path
  | .error e => e.elim

/-- `std::process::Output`, restricted to what the macro reads:
`status.success()` and the raw `stdout` bytes. -/
structure ProcOutput where
  success : Bool
  stdout : List Nat
deriving DecidableEq

/-- One subprocess invocation: the program path handed to
`Command::new` and the argument list built by the `.arg` calls. -/
structure SpawnCall where
  bin : String
  args : List String
deriving DecidableEq

/-- UTF-8 encoding of one Unicode scalar value, as Rust's `char`
encodes into a `str` buffer: the byte-for-byte content the decoded
text stands for. -/
def encodeChar (c : Nat) : List Nat :=
  if c < 0x80 then [c]
  else if c < 0x800 then [0xC0 + c / 64, 0x80 + c % 64]
  else if c < 0x10000 then
    [0xE0 + c / 4096, 0x80 + (c / 64) % 64, 0x80 + c % 64]
  else
    [0xF0 + c / 262144, 0x80 + (c / 4096) % 64, 0x80 + (c / 64) % 64, 0x80 + c % 64]

/-- UTF-8 encoding of a sequence of scalar values: the byte content of
the corresponding `str`. -/
def encodeUtf8 : List Nat → List Nat
  | [] => []
  | c :: cs => encodeChar c ++ encodeUtf8 cs

/-- One step of strict UTF-8 validation, as in `std::str::from_utf8`'s
`run_utf8_validation`: given the first byte and the remaining bytes,
return the decoded Unicode scalar value and the bytes after it.
Continuation bytes lie in `80..BF`; overlong forms are rejected
(first-byte ranges `C2..DF`; `E0` needs second byte `A0..BF`; `F0`
needs second byte `90..BF`); surrogates are rejected (`ED` second byte
below `A0`); scalars above `U+10FFFF` are rejected (`F4` second byte
below `90`, first byte below `F5`). -/
def decodeStep (b1 : Nat) (bs : List Nat) : Option (Nat × List Nat) :=
  if b1 < 0x80 then some (b1, bs)
  else if b1 < 0xC2 then none
  else if b1 < 0xE0 then
    match bs with
    | b2 :: bs2 =>
      if 0x80 ≤ b2 ∧ b2 < 0xC0 then
        some ((b1 - 0xC0) * 64 + (b2 - 0x80), bs2)
      else none
    | [] => none
  else if b1 < 0xF0 then
    match bs with
    | b2 :: b3 :: bs3 =>
      if (if b1 = 0xE0 then 0xA0 ≤ b2 ∧ b2 < 0xC0
          else if b1 = 0xED then 0x80 ≤ b2 ∧ b2 < 0xA0
          else 0x80 ≤ b2 ∧ b2 < 0xC0) ∧ 0x80 ≤ b3 ∧ b3 < 0xC0 then
        some ((b1 - 0xE0) * 4096 + (b2 - 0x80) * 64 + (b3 - 0x80), bs3)
      else none
    | _ => none
  else if b1 < 0xF5 then
    match bs with
    | b2 :: b3 :: b4 :: bs4 =>
      if (if b1 = 0xF0 then 0x90 ≤ b2 ∧ b2 < 0xC0
          else if b1 = 0xF4 then 0x80 ≤ b2 ∧ b2 < 0x90
          else 0x80 ≤ b2 ∧ b2 < 0xC0) ∧ 0x80 ≤ b3 ∧ b3 < 0xC0 ∧
          0x80 ≤ b4 ∧ b4 < 0xC0 then
        some ((b1 - 0xF0) * 262144 + (b2 - 0x80) * 4096 + (b3 - 0x80) * 64
            + (b4 - 0x80), bs4)
      else none
    | _ => none
  else none

/-- The UTF-8 validation loop, structurally recursive on a fuel bound.
Each `decodeStep` consumes at least the leading byte, so fuel equal to
the byte count never runs out (`decodeLoop_fuel`). -/
def decodeLoop : Nat → List Nat → Option (List Nat)
  | _, [] => some []
  | 0, _ :: _ => none
  | fuel + 1, b1 :: bs =>
    match decodeStep b1 bs with
    | none => none
    | some (c, rest) => (decodeLoop fuel rest).map (c :: ·)

/-- `std::str::from_utf8` (line 323), as the list of decoded Unicode
scalar values of the resulting `&str` — `none` on invalid UTF-8. -/
def decodeUtf8 (bs : List Nat) : Option (List Nat) :=
  decodeLoop bs.length bs

/-- The macro body after the `CARGO_MANIFEST_DIR` lookup (lines 188-333),
as a function of the manifest directory, the parsed argument list, the
environment, the filesystem existence predicate, and the subprocess
runner.  Returns the macro's outcome — the embedded literal's scalar
values, or the abort diagnostic — paired with the list of subprocess
invocations performed. -/
def include_tailwind (manifest : String) (args : List Argument)
    (env : String → Option String) (fs : String → Bool)
    (run : SpawnCall → Except String ProcOutput) :
    Except String (List Nat) × List SpawnCall :=
  match resolve_config args env with
  | .error e => (.error e, [])
  | .ok config =>
  match resolve_input args env with
  | .error e => (.error e, [])
  | .ok input =>
  match resolve_bin args env with
  | .error e => (.error e, [])
  | .ok bin =>
  let config_path := normalize_path manifest config
  if ¬ fs config_path then
    (.error ("Config path does not exist: " ++ config_path), [])
  else
  let input_path := normalize_path manifest input
  if ¬ fs input_path then
    (.error ("Input path does not exist: " ++ input_path), [])
  else
  let bin_path := normalize_path manifest bin
  if ¬ fs bin_path then
    (.error ("The tailwindcss_bin path does not exist: " ++ bin_path), [])
  else
  let call : SpawnCall :=
    ⟨bin_path, ["-c", config_path, "-i", input_path, "--minify"]⟩
  match run call with
  | .error e => (.error ("Tailwind proc did not run correctly: " ++ e), [call])
  | .ok out =>
    if ¬ out.success then
      (.error "Tailwind proc did not run correctly.", [call])
    else
      match decodeUtf8 out.stdout with
      | none => (.error "Generated file is not utf8", [call])
      | some cs => (.ok cs, [call])

/-- The full macro entry point (lines 181-187): first
`std::env::var("CARGO_MANIFEST_DIR").unwrap()` — `none` models the panic
when the variable is unset, which happens before any resolution. -/
def include_tailwind_entry (args : List Argument)
    (env : String → Option String) (fs : String → Bool)
    (run : SpawnCall → Except String ProcOutput) :
    Option (Except String (List Nat) × List SpawnCall) :=
  match env "CARGO_MANIFEST_DIR" with
  | none => none
  | some manifest => some (include_tailwind manifest args env fs run)

/-- `needle` occurs as contiguous text inside `hay`: the diagnostic "names"
a parameter or variable when its name is a substring of the message. -/
def containsStr (hay needle : String) : Prop :=
  needle.data <:+: hay.data

instance (hay needle : String) : Decidable (containsStr hay needle) :=
  inferInstanceAs (Decidable (needle.data <:+: hay.data))

/-- An environment with no variables set. -/
def env_none : String → Option String := fun _ => none

/-- An environment where only `_env`-override-named variables and the
default-named variables are set, with distinct values, to exercise the
override precedence. -/
def env_w1 : String → Option String := fun n =>
  if n = "MY_CONF" then some "cval"
  else if n = "MY_IN" then some "ival"
  else if n = "MY_BIN" then some "bval"
  else if n = "TAILWINDCSS_CONFIG" then some "defc"
  else if n = "TAILWINDCSS_INPUT" then some "defi"
  else if n = "TAILWINDCSS_BIN" then some "defb"
  else none

/-- A filesystem on which every path exists. -/
def fs_true : String → Bool := fun _ => true

/-- A filesystem on which no path exists. -/
def fs_false : String → Bool := fun _ => false

/-- A runner whose tool succeeds and prints the ASCII bytes of "hi". -/
def run_ok : SpawnCall → Except String ProcOutput := fun _ => .ok ⟨true, [104, 105]⟩

/-- A runner whose tool starts but exits with a non-zero status. -/
def run_exit1 : SpawnCall → Except String ProcOutput := fun _ => .ok ⟨false, [42]⟩

/-- A runner whose tool succeeds but emits an invalid UTF-8 byte. -/
def run_bad_bytes : SpawnCall → Except String ProcOutput := fun _ => .ok ⟨true, [0xFF]⟩

/-- Arguments giving explicit values for all three parameters. -/
def args_w : List Argument :=
  [Argument.Config "c.js", Argument.Input "in.css", Argument.TailwindCssBin "/bin/tw"]

/-- Arguments giving `_env` overrides for all three parameters. -/
def args_env_w : List Argument :=
  [Argument.ConfigEnv "MY_CONF", Argument.InputEnv "MY_IN",
   Argument.TailwindCssBinEnv "MY_BIN"]

/-! ### Helper lemmas -/

theorem decodeStep_sound (b1 : Nat) (bs : List Nat) (c : Nat) (rest : List Nat)
    (h : decodeStep b1 bs = some (c, rest)) :
    encodeChar c ++ rest = b1 :: bs ∧ rest.length ≤ bs.length := by
  simp only [decodeStep] at h
  by_cases h1 : b1 < 0x80
  · rw [if_pos h1] at h
    simp only [Option.some.injEq, Prod.mk.injEq] at h
    obtain ⟨rfl, rfl⟩ := h
    refine ⟨?_, le_refl _⟩
    simp only [encodeChar, if_pos h1]
    rfl
  · rw [if_neg h1] at h
    by_cases h2 : b1 < 0xC2
    · rw [if_pos h2] at h; exact absurd h (by simp)
    · rw [if_neg h2] at h
      by_cases h3 : b1 < 0xE0
      · rw [if_pos h3] at h
        cases bs with
        | nil => exact absurd h (by simp)
        | cons b2 bs2 =>
          replace h : (if 0x80 ≤ b2 ∧ b2 < 0xC0 then
              some ((b1 - 0xC0) * 64 + (b2 - 0x80), bs2) else none) = some (c, rest) := h
          by_cases h4 : 0x80 ≤ b2 ∧ b2 < 0xC0
          · rw [if_pos h4] at h
            simp only [Option.some.injEq, Prod.mk.injEq] at h
            obtain ⟨rfl, rfl⟩ := h
            obtain ⟨p1, p2⟩ := h4
            refine ⟨?_, by simp⟩
            simp only [encodeChar]
            rw [if_neg (by omega), if_pos (by omega)]
            simp only [List.cons_append, List.nil_append, List.cons.injEq]
            exact ⟨by omega, by omega, trivial⟩
          · rw [if_neg h4] at h; exact absurd h (by simp)
      · rw [if_neg h3] at h
        by_cases h5 : b1 < 0xF0
        · rw [if_pos h5] at h
          match bs with
          | [] => exact absurd h (by simp)
          | [b2] => exact absurd h (by simp)
          | b2 :: b3 :: bs3 =>
            replace h : (if (if b1 = 0xE0 then 0xA0 ≤ b2 ∧ b2 < 0xC0
                else if b1 = 0xED then 0x80 ≤ b2 ∧ b2 < 0xA0
                else 0x80 ≤ b2 ∧ b2 < 0xC0) ∧ 0x80 ≤ b3 ∧ b3 < 0xC0 then
                some ((b1 - 0xE0) * 4096 + (b2 - 0x80) * 64 + (b3 - 0x80), bs3)
              else none) = some (c, rest) := h
            by_cases h6 : (if b1 = 0xE0 then 0xA0 ≤ b2 ∧ b2 < 0xC0
                else if b1 = 0xED then 0x80 ≤ b2 ∧ b2 < 0xA0
                else 0x80 ≤ b2 ∧ b2 < 0xC0) ∧ 0x80 ≤ b3 ∧ b3 < 0xC0
            · rw [if_pos h6] at h
              simp only [Option.some.injEq, Prod.mk.injEq] at h
              obtain ⟨rfl, rfl⟩ := h
              obtain ⟨hA, hB1, hB2⟩ := h6
              have key : 0x80 ≤ b2 ∧ b2 < 0xC0 ∧
                  0x800 ≤ (b1 - 0xE0) * 4096 + (b2 - 0x80) * 64 + (b3 - 0x80) := by
                by_cases he : b1 = 0xE0
                · rw [if_pos he] at hA
                  exact ⟨by omega, by omega, by omega⟩
                · rw [if_neg he] at hA
                  by_cases hd : b1 = 0xED
                  · rw [if_pos hd] at hA
                    exact ⟨by omega, by omega, by omega⟩
                  · rw [if_neg hd] at hA
                    exact ⟨hA.1, hA.2, by omega⟩
              obtain ⟨k1, k2, k3⟩ := key
              refine ⟨?_, by simp; omega⟩
              simp only [encodeChar]
              rw [if_neg (by omega), if_neg (by omega), if_pos (by omega)]
              simp only [List.cons_append, List.nil_append, List.cons.injEq]
              exact ⟨by omega, by omega, by omega, trivial⟩
            · rw [if_neg h6] at h; exact absurd h (by simp)
        · rw [if_neg h5] at h
          by_cases h7 : b1 < 0xF5
          · rw [if_pos h7] at h
            match bs with
            | [] => exact absurd h (by simp)
            | [b2] => exact absurd h (by simp)
            | [b2, b3] => exact absurd h (by simp)
            | b2 :: b3 :: b4 :: bs4 =>
              replace h : (if (if b1 = 0xF0 then 0x90 ≤ b2 ∧ b2 < 0xC0
                  else if b1 = 0xF4 then 0x80 ≤ b2 ∧ b2 < 0x90
                  else 0x80 ≤ b2 ∧ b2 < 0xC0) ∧ 0x80 ≤ b3 ∧ b3 < 0xC0 ∧
                  0x80 ≤ b4 ∧ b4 < 0xC0 then
                  some ((b1 - 0xF0) * 262144 + (b2 - 0x80) * 4096 + (b3 - 0x80) * 64
                      + (b4 - 0x80), bs4)
                else none) = some (c, rest) := h
              by_cases h8 : (if b1 = 0xF0 then 0x90 ≤ b2 ∧ b2 < 0xC0
                  else if b1 = 0xF4 then 0x80 ≤ b2 ∧ b2 < 0x90
                  else 0x80 ≤ b2 ∧ b2 < 0xC0) ∧ 0x80 ≤ b3 ∧ b3 < 0xC0 ∧
                  0x80 ≤ b4 ∧ b4 < 0xC0
              · rw [if_pos h8] at h
                simp only [Option.some.injEq, Prod.mk.injEq] at h
                obtain ⟨rfl, rfl⟩ := h
                obtain ⟨hA, hB1, hB2, hC1, hC2⟩ := h8
                have key : 0x80 ≤ b2 ∧ b2 < 0xC0 ∧
                    0x10000 ≤ (b1 - 0xF0) * 262144 + (b2 - 0x80) * 4096 +
                      (b3 - 0x80) * 64 + (b4 - 0x80) := by
                  by_cases he : b1 = 0xF0
                  · rw [if_pos he] at hA
                    exact ⟨by omega, by omega, by omega⟩
                  · rw [if_neg he] at hA
                    by_cases hd : b1 = 0xF4
                    · rw [if_pos hd] at hA
                      exact ⟨by omega, by omega, by omega⟩
                    · rw [if_neg hd] at hA
                      exact ⟨hA.1, hA.2, by omega⟩
                obtain ⟨k1, k2, k3⟩ := key
                refine ⟨?_, by simp; omega⟩
                simp only [encodeChar]
                rw [if_neg (by omega), if_neg (by omega), if_neg (by omega)]
                simp only [List.cons_append, List.nil_append, List.cons.injEq]
                exact ⟨by omega, by omega, by omega, by omega, trivial⟩
              · rw [if_neg h8] at h; exact absurd h (by simp)
          · rw [if_neg h7] at h; exact absurd h (by simp)

theorem decodeLoop_encode (fuel : Nat) :
    ∀ (bs : List Nat) (cs : List Nat), decodeLoop fuel bs = some cs →
      encodeUtf8 cs = bs := by
  induction fuel with
  | zero =>
    intro bs cs h
    cases bs with
    | nil =>
      simp only [decodeLoop, Option.some.injEq] at h
      simp [← h, encodeUtf8]
    | cons b1 bs' => simp [decodeLoop] at h
  | succ fuel ih =>
    intro bs cs h
    cases bs with
    | nil =>
      simp only [decodeLoop, Option.some.injEq] at h
      simp [← h, encodeUtf8]
    | cons b1 bs' =>
      simp only [decodeLoop] at h
      cases hs : decodeStep b1 bs' with
      | none => rw [hs] at h; simp at h
      | some p =>
        obtain ⟨c, rest⟩ := p
        rw [hs] at h
        simp only [Option.map_eq_some'] at h
        obtain ⟨a, ha, hcs⟩ := h
        subst hcs
        obtain ⟨henc, _⟩ := decodeStep_sound b1 bs' c rest hs
        simp only [encodeUtf8, ih rest a ha]
        exact henc

theorem decodeLoop_fuel (fuel fuel' : Nat) :
    ∀ (bs : List Nat), bs.length ≤ fuel → bs.length ≤ fuel' →
      decodeLoop fuel bs = decodeLoop fuel' bs := by
  induction fuel generalizing fuel' with
  | zero =>
    intro bs h h'
    cases bs with
    | nil => cases fuel' <;> simp [decodeLoop]
    | cons b1 bs' => simp at h
  | succ fuel ih =>
    intro bs h h'
    cases bs with
    | nil => cases fuel' <;> simp [decodeLoop]
    | cons b1 bs' =>
      cases fuel' with
      | zero => simp at h'
      | succ fuel' =>
        simp only [decodeLoop]
        cases hs : decodeStep b1 bs' with
        | none => rfl
        | some p =>
          obtain ⟨c, rest⟩ := p
          have hlen := (decodeStep_sound b1 bs' c rest hs).2
          simp only [List.length_cons] at h h'
          show (decodeLoop fuel rest).map (c :: ·) = (decodeLoop fuel' rest).map (c :: ·)
          rw [ih fuel' rest (by omega) (by omega)]

/-- Prepending text keeps the appended string as a substring: the
diagnostic `pfx ++ s` names the path `s`. -/
theorem containsStr_append_right (pfx s : String) : containsStr (pfx ++ s) s := by
  unfold containsStr
  rw [String.data_append]
  exact (List.suffix_append _ _).isInfix

/-- `filter_map(..).next()` skips a leading segment on which the
selector returns `none`. -/
theorem findSome?_append_of_none {α β : Type} (f : α → Option β) (l1 l2 : List α)
    (h : ∀ a ∈ l1, f a = none) : (l1 ++ l2).findSome? f = l2.findSome? f := by
  induction l1 with
  | nil => rfl
  | cons a l ih =>
    simp only [List.cons_append, List.findSome?]
    rw [h a (by simp)]
    exact ih (fun b hb => h b (by simp [hb]))

/-! ### Claim theorems -/

/-- C1: for each of the three logical parameters, resolution uses the
explicit value argument when present; otherwise it reads the environment
variable named by the `_env` override when given (so an override that
names a set variable wins even if the default-named variable is also
set), else the fixed default name, and uses that variable's value. -/
theorem parameter_resolution_precedence (args : List Argument)
    (env : String → Option String) :
    (∀ v, first_config args = some v → resolve_config args env = .ok v)
  ∧ (∀ n, first_config_env args = some n → config_env_name args = n)
  ∧ (first_config_env args = none → config_env_name args = "TAILWINDCSS_CONFIG")
  ∧ (first_config args = none → ∀ w, env (config_env_name args) = some w →
      resolve_config args env = .ok w)
  ∧ (∀ v, first_input args = some v → resolve_input args env = .ok v)
  ∧ (∀ n, first_input_env args = some n → input_env_name args = n)
  ∧ (first_input_env args = none → input_env_name args = "TAILWINDCSS_INPUT")
  ∧ (first_input args = none → ∀ w, env (input_env_name args) = some w →
      resolve_input args env = .ok w)
  ∧ (∀ v, first_tailwindcss_bin args = some v → resolve_bin args env = .ok v)
  ∧ (∀ n, first_tailwindcss_bin_env args = some n → bin_env_name args = n)
  ∧ (first_tailwindcss_bin_env args = none → bin_env_name args = "TAILWINDCSS_BIN")
  ∧ (first_tailwindcss_bin args = none → ∀ w, env (bin_env_name args) = some w →
      resolve_bin args env = .ok w) := by
  refine ⟨?_, ?_, ?_, ?_, ?_, ?_, ?_, ?_, ?_, ?_, ?_, ?_⟩
  · intro v h; simp [resolve_config, h]
  · intro n h; simp [config_env_name, h]
  · intro h; simp [config_env_name, h]
  · intro h w hw; simp [resolve_config, h, hw]
  · intro v h; simp [resolve_input, h]
  · intro n h; simp [input_env_name, h]
  · intro h; simp [input_env_name, h]
  · intro h w hw; simp [resolve_input, h, hw]
  · intro v h; simp [resolve_bin, h]
  · intro n h; simp [bin_env_name, h]
  · intro h; simp [bin_env_name, h]
  · intro h w hw; simp [resolve_bin, h, hw]

/-- C1 witness: with `_env` overrides naming set variables, all three
parameters resolve to the override-named variables' values, although the
default-named variables are also set (to different values). -/
theorem parameter_resolution_precedence_witness :
    resolve_config args_env_w env_w1 = .ok "cval" ∧
    resolve_input args_env_w env_w1 = .ok "ival" ∧
    resolve_bin args_env_w env_w1 = .ok "bval" := by
  obtain ⟨-, -, -, h4, -, -, -, h8, -, -, -, h12⟩ :=
    parameter_resolution_precedence args_env_w env_w1
  exact ⟨h4 rfl "cval" rfl, h8 rfl "ival" rfl, h12 rfl "bval" rfl⟩

/-- C2 counterexample: with `config_env: "MYVAR"` and `MYVAR` unset, the
diagnostic hard-codes the default name `TAILWINDCSS_CONFIG` and does not
name `MYVAR`, the variable that was actually checked. -/
theorem missing_override_var_not_named_counterexample :
    resolve_config [Argument.ConfigEnv "MYVAR"] env_none = .error missing_config_msg ∧
    ¬ containsStr missing_config_msg "MYVAR" :=
  ⟨rfl, by decide⟩

/-- C2 amended: when neither an explicit value is given nor the checked
environment variable (override name or default) is set, resolution fails
fatally — aborting the build with no subprocess spawned — with a
diagnostic naming the parameter and that parameter's fixed default
environment-variable name (the message hard-codes the default name even
when an `_env` override was the variable checked). -/
theorem missing_parameter_error_message (manifest : String) (args : List Argument)
    (env : String → Option String) (fs : String → Bool)
    (run : SpawnCall → Except String ProcOutput) :
    (first_config args = none → env (config_env_name args) = none →
      resolve_config args env = .error missing_config_msg ∧
      containsStr missing_config_msg "config" ∧
      containsStr missing_config_msg "TAILWINDCSS_CONFIG" ∧
      include_tailwind manifest args env fs run = (.error missing_config_msg, []))
  ∧ (first_input args = none → env (input_env_name args) = none →
      resolve_input args env = .error missing_input_msg ∧
      containsStr missing_input_msg "input" ∧
      containsStr missing_input_msg "TAILWINDCSS_INPUT" ∧
      (∀ c, resolve_config args env = .ok c →
        include_tailwind manifest args env fs run = (.error missing_input_msg, [])))
  ∧ (first_tailwindcss_bin args = none → env (bin_env_name args) = none →
      resolve_bin args env = .error missing_bin_msg ∧
      containsStr missing_bin_msg "tailwindcss_bin" ∧
      containsStr missing_bin_msg "TAILWINDCSS_BIN" ∧
      (∀ c i, resolve_config args env = .ok c → resolve_input args env = .ok i →
        include_tailwind manifest args env fs run = (.error missing_bin_msg, []))) := by
  refine ⟨?_, ?_, ?_⟩
  · intro h1 h2
    have hr : resolve_config args env = .error missing_config_msg := by
      simp [resolve_config, h1, h2]
    exact ⟨hr, by decide, by decide, by simp [include_tailwind, hr]⟩
  · intro h1 h2
    have hr : resolve_input args env = .error missing_input_msg := by
      simp [resolve_input, h1, h2]
    refine ⟨hr, by decide, by decide, ?_⟩
    intro c hc
    simp [include_tailwind, hc, hr]
  · intro h1 h2
    have hr : resolve_bin args env = .error missing_bin_msg := by
      simp [resolve_bin, h1, h2]
    refine ⟨hr, by decide, by decide, ?_⟩
    intro c i hc hi
    simp [include_tailwind, hc, hi, hr]

/-- C2 amended witness: with no arguments and an empty environment, the
config parameter fails with the expected message and the build step
aborts without spawning. -/
theorem missing_parameter_error_message_witness :
    resolve_config [] env_none = .error missing_config_msg ∧
    containsStr missing_config_msg "config" ∧
    containsStr missing_config_msg "TAILWINDCSS_CONFIG" ∧
    include_tailwind "/proj" [] env_none fs_true run_ok =
      (.error missing_config_msg, []) :=
  (missing_parameter_error_message "/proj" [] env_none fs_true run_ok).1 rfl rfl

/-- C3: the path normalizer leaves an absolute resolved string unchanged
and joins a relative one onto the project root; when the project root is
a nonempty directory string without a trailing separator the result is
exactly `<project-root>/<relative-path>`. -/
theorem relative_path_normalization (manifest p : String) :
    (is_relative p = true → normalize_path manifest p = path_join manifest p)
  ∧ (is_relative p = false → normalize_path manifest p = p)
  ∧ (is_relative p = true → manifest ≠ "" → manifest.data.getLast? ≠ some '/' →
      normalize_path manifest p = manifest ++ "/" ++ p) := by
  refine ⟨?_, ?_, ?_⟩
  · intro h; simp [normalize_path, parse_path, h]
  · intro h; simp [normalize_path, parse_path, h]
  · intro h h1 h2; simp [normalize_path, parse_path, path_join, h, h1, h2]

/-- C3 witness: a relative input path is anchored at the project root. -/
theorem relative_path_normalization_witness :
    normalize_path "/proj" "styles/in.css" = "/proj" ++ "/" ++ "styles/in.css" :=
  (relative_path_normalization "/proj" "styles/in.css").2.2 (by decide) (by decide)
    (by decide)

/-- C4: when a normalized path does not exist, the build step aborts with
a diagnostic naming the parameter and carrying the computed path, and the
spawn trace is empty — the three existence checks all precede the process
invocation. -/
theorem nonexistent_path_aborts_before_spawn (manifest : String)
    (args : List Argument) (env : String → Option String) (fs : String → Bool)
    (run : SpawnCall → Except String ProcOutput) (c i b : String)
    (hc : resolve_config args env = .ok c)
    (hi : resolve_input args env = .ok i)
    (hb : resolve_bin args env = .ok b) :
    (fs (normalize_path manifest c) = false →
      include_tailwind manifest args env fs run =
        (.error ("Config path does not exist: " ++ normalize_path manifest c), []))
  ∧ (fs (normalize_path manifest c) = true →
      fs (normalize_path manifest i) = false →
      include_tailwind manifest args env fs run =
        (.error ("Input path does not exist: " ++ normalize_path manifest i), []))
  ∧ (fs (normalize_path manifest c) = true →
      fs (normalize_path manifest i) = true →
      fs (normalize_path manifest b) = false →
      include_tailwind manifest args env fs run =
        (.error ("The tailwindcss_bin path does not exist: " ++
          normalize_path manifest b), []))
  ∧ ((fs (normalize_path manifest c) = false ∨
      fs (normalize_path manifest i) = false ∨
      fs (normalize_path manifest b) = false) →
      (include_tailwind manifest args env fs run).2 = [])
  ∧ (∀ s, containsStr ("Config path does not exist: " ++ s) s ∧
      containsStr ("Input path does not exist: " ++ s) s ∧
      containsStr ("The tailwindcss_bin path does not exist: " ++ s) s) := by
  have k1 : fs (normalize_path manifest c) = false →
      include_tailwind manifest args env fs run =
        (.error ("Config path does not exist: " ++ normalize_path manifest c), []) := by
    intro h
    simp [include_tailwind, hc, hi, hb, h]
  have k2 : fs (normalize_path manifest c) = true →
      fs (normalize_path manifest i) = false →
      include_tailwind manifest args env fs run =
        (.error ("Input path does not exist: " ++ normalize_path manifest i), []) := by
    intro h1 h2
    simp [include_tailwind, hc, hi, hb, h1, h2]
  have k3 : fs (normalize_path manifest c) = true →
      fs (normalize_path manifest i) = true →
      fs (normalize_path manifest b) = false →
      include_tailwind manifest args env fs run =
        (.error ("The tailwindcss_bin path does not exist: " ++
          normalize_path manifest b), []) := by
    intro h1 h2 h3
    simp [include_tailwind, hc, hi, hb, h1, h2, h3]
  refine ⟨k1, k2, k3, ?_, ?_⟩
  · intro hor
    cases f1 : fs (normalize_path manifest c) with
    | false => rw [k1 f1]
    | true =>
      cases f2 : fs (normalize_path manifest i) with
      | false => rw [k2 f1 f2]
      | true =>
        cases f3 : fs (normalize_path manifest b) with
        | false => rw [k3 f1 f2 f3]
        | true => rcases hor with h | h | h <;> simp_all
  · intro s
    exact ⟨containsStr_append_right _ _, containsStr_append_right _ _,
      containsStr_append_right _ _⟩

/-- C4 witness: on a filesystem where nothing exists, the build aborts on
the config path with an empty spawn trace. -/
theorem nonexistent_path_aborts_before_spawn_witness :
    include_tailwind "/proj" args_w env_none fs_false run_ok =
      (.error ("Config path does not exist: " ++ normalize_path "/proj" "c.js"), []) :=
  (nonexistent_path_aborts_before_spawn "/proj" args_w env_none fs_false run_ok
    "c.js" "in.css" "/bin/tw" rfl rfl rfl).1 rfl

/-- C5: when all three resolved paths exist, the spawn trace of the build
step is exactly one invocation of the resolved tool-binary path with the
argument sequence `-c <config-path> -i <input-path> --minify`, whatever
the runner then returns. -/
theorem spawn_exactly_once_with_flags (manifest : String)
    (args : List Argument) (env : String → Option String) (fs : String → Bool)
    (run : SpawnCall → Except String ProcOutput) (c i b : String)
    (hc : resolve_config args env = .ok c)
    (hi : resolve_input args env = .ok i)
    (hb : resolve_bin args env = .ok b)
    (hfc : fs (normalize_path manifest c) = true)
    (hfi : fs (normalize_path manifest i) = true)
    (hfb : fs (normalize_path manifest b) = true) :
    (include_tailwind manifest args env fs run).2 =
      [⟨normalize_path manifest b,
        ["-c", normalize_path manifest c, "-i", normalize_path manifest i,
         "--minify"]⟩] := by
  simp only [include_tailwind, hc, hi, hb, hfc, hfi, hfb, not_true_eq_false,
    if_false, ite_false]
  cases hr : run ⟨normalize_path manifest b,
      ["-c", normalize_path manifest c, "-i", normalize_path manifest i,
       "--minify"]⟩ with
  | error e => simp [hr]
  | ok out =>
    cases hs : out.success with
    | false => simp [hr, hs]
    | true => cases hd : decodeUtf8 out.stdout <;> simp [hr, hs, hd]

/-- C5 witness: with explicit arguments and an all-existing filesystem,
exactly one spawn with the fixed flag sequence is recorded. -/
theorem spawn_exactly_once_with_flags_witness :
    (include_tailwind "/proj" args_w env_none fs_true run_ok).2 =
      [⟨normalize_path "/proj" "/bin/tw",
        ["-c", normalize_path "/proj" "c.js", "-i", normalize_path "/proj" "in.css",
         "--minify"]⟩] :=
  spawn_exactly_once_with_flags "/proj" args_w env_none fs_true run_ok
    "c.js" "in.css" "/bin/tw" rfl rfl rfl rfl rfl rfl

/-- C6: a tool run that exits with a non-zero status aborts the build step
with the fixed generic message "Tailwind proc did not run correctly."
(no passthrough of the tool's diagnostics — the message is a constant
independent of the process output), and no output literal is embedded. -/
theorem nonzero_exit_generic_error (manifest : String)
    (args : List Argument) (env : String → Option String) (fs : String → Bool)
    (run : SpawnCall → Except String ProcOutput) (c i b : String)
    (out : ProcOutput)
    (hc : resolve_config args env = .ok c)
    (hi : resolve_input args env = .ok i)
    (hb : resolve_bin args env = .ok b)
    (hfc : fs (normalize_path manifest c) = true)
    (hfi : fs (normalize_path manifest i) = true)
    (hfb : fs (normalize_path manifest b) = true)
    (hr : run ⟨normalize_path manifest b,
      ["-c", normalize_path manifest c, "-i", normalize_path manifest i,
       "--minify"]⟩ = .ok out)
    (hs : out.success = false) :
    include_tailwind manifest args env fs run =
      (.error "Tailwind proc did not run correctly.",
       [⟨normalize_path manifest b,
         ["-c", normalize_path manifest c, "-i", normalize_path manifest i,
          "--minify"]⟩]) := by
  simp [include_tailwind, hc, hi, hb, hfc, hfi, hfb, hr, hs]

/-- C6 witness: a runner that exits non-zero yields the generic error and
no embedded literal. -/
theorem nonzero_exit_generic_error_witness :
    include_tailwind "/proj" args_w env_none fs_true run_exit1 =
      (.error "Tailwind proc did not run correctly.",
       [⟨normalize_path "/proj" "/bin/tw",
         ["-c", normalize_path "/proj" "c.js", "-i", normalize_path "/proj" "in.css",
          "--minify"]⟩]) :=
  nonzero_exit_generic_error "/proj" args_w env_none fs_true run_exit1
    "c.js" "in.css" "/bin/tw" ⟨false, [42]⟩ rfl rfl rfl rfl rfl rfl rfl rfl

/-- C7: for a successful tool run, invalid UTF-8 standard output aborts
the build with the decode diagnostic and no substituted literal, while
valid UTF-8 output is embedded as exactly the decoded text — whose
re-encoding is byte-for-byte the captured standard output, so no
transformation is applied. -/
theorem utf8_output_embedding (manifest : String)
    (args : List Argument) (env : String → Option String) (fs : String → Bool)
    (run : SpawnCall → Except String ProcOutput) (c i b : String)
    (out : ProcOutput)
    (hc : resolve_config args env = .ok c)
    (hi : resolve_input args env = .ok i)
    (hb : resolve_bin args env = .ok b)
    (hfc : fs (normalize_path manifest c) = true)
    (hfi : fs (normalize_path manifest i) = true)
    (hfb : fs (normalize_path manifest b) = true)
    (hr : run ⟨normalize_path manifest b,
      ["-c", normalize_path manifest c, "-i", normalize_path manifest i,
       "--minify"]⟩ = .ok out)
    (hs : out.success = true) :
    (decodeUtf8 out.stdout = none →
      include_tailwind manifest args env fs run =
        (.error "Generated file is not utf8",
         [⟨normalize_path manifest b,
           ["-c", normalize_path manifest c, "-i", normalize_path manifest i,
            "--minify"]⟩]))
  ∧ (∀ cs, decodeUtf8 out.stdout = some cs →
      include_tailwind manifest args env fs run =
        (.ok cs,
         [⟨normalize_path manifest b,
           ["-c", normalize_path manifest c, "-i", normalize_path manifest i,
            "--minify"]⟩]) ∧
      encodeUtf8 cs = out.stdout) := by
  refine ⟨?_, ?_⟩
  · intro hd
    simp [include_tailwind, hc, hi, hb, hfc, hfi, hfb, hr, hs, hd]
  · intro cs hd
    refine ⟨?_, decodeLoop_encode out.stdout.length out.stdout cs hd⟩
    simp [include_tailwind, hc, hi, hb, hfc, hfi, hfb, hr, hs, hd]

/-- C7 witness: the successful run printing the bytes of "hi" embeds the
two scalar values of "hi", and their encoding is the captured output. -/
theorem utf8_output_embedding_witness :
    include_tailwind "/proj" args_w env_none fs_true run_ok =
      (.ok [104, 105],
       [⟨normalize_path "/proj" "/bin/tw",
         ["-c", normalize_path "/proj" "c.js", "-i", normalize_path "/proj" "in.css",
          "--minify"]⟩]) ∧
    encodeUtf8 [104, 105] = [104, 105] :=
  (utf8_output_embedding "/proj" args_w env_none fs_true run_ok
    "c.js" "in.css" "/bin/tw" ⟨true, [104, 105]⟩ rfl rfl rfl rfl rfl rfl rfl rfl).2
    [104, 105] rfl

/-- C8: for each of the six argument shapes, resolution selects the first
occurrence of that shape in the argument list's iteration order; later
duplicates after it are never consulted (the selection is made by
`filter_map(..).next()` over the list). -/
theorem duplicate_args_first_match_wins (l1 l2 : List Argument) (v : String) :
    ((∀ a ∈ l1, a.as_config = none) →
      first_config (l1 ++ Argument.Config v :: l2) = some v)
  ∧ ((∀ a ∈ l1, a.as_config_env = none) →
      first_config_env (l1 ++ Argument.ConfigEnv v :: l2) = some v)
  ∧ ((∀ a ∈ l1, a.as_input = none) →
      first_input (l1 ++ Argument.Input v :: l2) = some v)
  ∧ ((∀ a ∈ l1, a.as_input_env = none) →
      first_input_env (l1 ++ Argument.InputEnv v :: l2) = some v)
  ∧ ((∀ a ∈ l1, a.as_tailwindcss_bin = none) →
      first_tailwindcss_bin (l1 ++ Argument.TailwindCssBin v :: l2) = some v)
  ∧ ((∀ a ∈ l1, a.as_tailwindcss_bin_env = none) →
      first_tailwindcss_bin_env (l1 ++ Argument.TailwindCssBinEnv v :: l2) = some v) := by
  refine ⟨?_, ?_, ?_, ?_, ?_, ?_⟩
  · intro h
    unfold first_config
    rw [findSome?_append_of_none _ _ _ h]
    rfl
  · intro h
    unfold first_config_env
    rw [findSome?_append_of_none _ _ _ h]
    rfl
  · intro h
    unfold first_input
    rw [findSome?_append_of_none _ _ _ h]
    rfl
  · intro h
    unfold first_input_env
    rw [findSome?_append_of_none _ _ _ h]
    rfl
  · intro h
    unfold first_tailwindcss_bin
    rw [findSome?_append_of_none _ _ _ h]
    rfl
  · intro h
    unfold first_tailwindcss_bin_env
    rw [findSome?_append_of_none _ _ _ h]
    rfl

/-- C8 witness: with two `config:` arguments, the first one wins and the
later duplicate is silently ignored. -/
theorem duplicate_args_first_match_wins_witness :
    first_config ([] ++ Argument.Config "a" :: [Argument.Config "b"]) = some "a" :=
  (duplicate_args_first_match_wins [] [Argument.Config "b"] "a").1 (by simp)

/-- C9: parsing a resolved string into a path is infallible — the parse
returns the same string for every input (the error type is
`Infallible`), so the "not a valid path" failure branch is unreachable
and normalization always proceeds to the relative/absolute case split. -/
theorem path_parse_infallible (s manifest : String) :
    parse_path s = Except.ok s ∧
    normalize_path manifest s =
      if is_relative s then path_join manifest s else s :=
  ⟨rfl, rfl⟩

/-- C10: if `CARGO_MANIFEST_DIR` is unset, the macro panics at its first
step — modelled as `none`, distinct from every `abort` diagnostic —
regardless of the arguments, the rest of the environment, the
filesystem, or the runner, so no parameter-resolution diagnostic is ever
produced without a defined project root. -/
theorem missing_manifest_dir_panics (args : List Argument)
    (env : String → Option String) (fs : String → Bool)
    (run : SpawnCall → Except String ProcOutput)
    (h : env "CARGO_MANIFEST_DIR" = none) :
    include_tailwind_entry args env fs run = none := by
  simp [include_tailwind_entry, h]

/-- C10 witness: with an empty environment (which would also make every
parameter resolution fail), the macro panics before reporting anything. -/
theorem missing_manifest_dir_panics_witness :
    include_tailwind_entry [] env_none fs_true run_ok = none :=
  missing_manifest_dir_panics [] env_none fs_true run_ok rfl

end TailwindMacro
